import Mathlib

/-!
Shallow embedding of the deterministic world-generation and persistent-state
core of the `cmpm-121-demo-3` repository.

Numbers follow the sources' JavaScript numbers, idealized as exact rationals
(`Rat`) for coordinates and oracle outputs, and as integers (`Int`) for the
counters that the sources only ever move by integer steps.

The repository has several variants of the game loop:
* `Main` embeds `src/src/main.ts` (store-backed, count-model, absolute cell
  indices, inclusive scan window);
* `ExampleVariant` embeds the neighborhood scan of `src/src/example.ts`
  (offsets `-8 <= i < 8`, exclusive upper bound);
* `Store` embeds the `CacheMemento` variant of `src/unnamed/part_001`
  (keys built from raw lat/lng, `generateCoins` via `Math.random`,
  popup-captured coin counts);
* `Flyweight` embeds the `CoordinateFactory` of `src/unnamed/part_001`;
* `Persist` embeds `saveState`/`loadState` of `src/unnamed/part_001`.

The file is laid out as definitions first, then theorems.
-/

namespace Demo3

/-- Modelled from the spec: `luck.ts` (the DeterministicOracle) is not under
`src/`; the spec fixes only that `luck` is a pure function from string keys
to pseudo-random values in `[0,1)` with no internal state. We therefore model
it as an arbitrary function `String → Rat` that theorems quantify over, and
`OracleInRange` is the spec's range contract for it. -/
def OracleInRange (luck : String → Rat) : Prop :=
  ∀ k, 0 ≤ luck k ∧ luck k < 1

/-- Tile size `TILE_DEGREES = 1e-4 = 1/10000` (`main.ts` line 19). -/
def TILE_DEGREES : Rat := mkRat 1 10000

/-- `NEIGHBORHOOD_SIZE = 8` (`main.ts` line 20). -/
def NEIGHBORHOOD_SIZE : Int := 8

/-- `CACHE_SPAWN_PROBABILITY = 0.1 = 1/10` (`main.ts` line 21). -/
def CACHE_SPAWN_PROBABILITY : Rat := mkRat 1 10

/-- Oracle key `[i, j].toString()` = `"i,j"` (`main.ts` line 150). -/
def cellKey (i j : Int) : String := toString i ++ "," ++ toString j

/-- Oracle key `[i, j, tag].toString()` = `"i,j,tag"` (`main.ts` lines 86-87). -/
def tagKey (i j : Int) (tag : String) : String :=
  toString i ++ "," ++ toString j ++ "," ++ tag

/-- Oracle key `[lat, lng].toString()` (`part_001` line 216). -/
def latLngKey (lat lng : Rat) : String := toString lat ++ "," ++ toString lng

/-- Oracle key `[lat, lng, tag].toString()` (`part_001` line 149). -/
def latLngTagKey (lat lng : Rat) (tag : String) : String :=
  toString lat ++ "," ++ toString lng ++ "," ++ tag

/-- The per-cache record `{ pointValue, coinCount }` stored by both the
`main.ts` `cacheState` object and the `part_001` `CacheMemento`. -/
structure CacheRecord where
  pointValue : Int
  coinCount : Int
deriving DecidableEq

/-- Lookup in a string-keyed object/`Map`, first matching key. -/
def alookup {α : Type} : List (String × α) → String → Option α
  | [], _ => none
  | e :: es, k => if e.1 = k then some e.2 else alookup es k

/-- Property/`Map.set` update: replace in place if the key is present,
append otherwise (JS objects and `Map` keep insertion order). -/
def aset {α : Type} : List (String × α) → String → α → List (String × α)
  | [], k, v => [(k, v)]
  | e :: es, k, v => if e.1 = k then (k, v) :: es else e :: aset es k v

/-- The integer list produced by `for (let v = lo; v <= hi; v++)`. -/
def intRange (lo hi : Int) : List Int :=
  (List.range (hi + 1 - lo).toNat).map (fun a : Nat => lo + a)

/-- The integer list produced by `for (let v = lo; v < hi; v++)`. -/
def intRangeLt (lo hi : Int) : List Int :=
  (List.range (hi - lo).toNat).map (fun a : Nat => lo + a)

/-- Existence check `luck([i, j].toString()) < CACHE_SPAWN_PROBABILITY`
(`main.ts` lines 150-152; `example.ts` lines 128-131). -/
def cacheExists (luck : String → Rat) (i j : Int) : Bool :=
  decide (luck (cellKey i j) < CACHE_SPAWN_PROBABILITY)

/-- `_latLngToCell` (`main.ts` lines 58-63). -/
def latLngToCell (lat lng : Rat) : Int × Int :=
  (⌊lat / TILE_DEGREES⌋, ⌊lng / TILE_DEGREES⌋)

/-- A concrete oracle stub: the constant `0`, which is in `[0,1)`. -/
def luckZero : String → Rat := fun _ => 0

/-- A concrete oracle stub that answers `0` exactly on the position key of
`(0, 0)` and `1/2` on every other key; both values are in `[0,1)`. -/
def luckSplit : String → Rat := fun k => if k = latLngKey 0 0 then 0 else mkRat 1 2

namespace Main

/-- Mutable module state of `main.ts`: the `cacheState` object (line 55)
and the `playerPoints` / `playerCoins` counters (lines 49-50). -/
structure GameState where
  cacheState : List (String × CacheRecord)
  playerPoints : Int
  playerCoins : Int
deriving DecidableEq

/-- Startup state of `main.ts`: empty `cacheState`, zero points and coins. -/
def initialState : GameState := ⟨[], 0, 0⟩

/-- The freshly derived record of `main.ts` lines 85-88:
`pointValue = Math.floor(luck([i, j, "initialValue"].toString()) * 100)`,
`coinCount = Math.floor(luck([i, j, "coinCount"].toString()) * 10)`. -/
def initialRecord (luck : String → Rat) (i j : Int) : CacheRecord :=
  ⟨⌊luck (tagKey i j "initialValue") * 100⌋, ⌊luck (tagKey i j "coinCount") * 10⌋⟩

/-- Evaluation of the popup callback of `main.ts` lines 83-90: materialize
`cacheState[cacheKey]` if absent, and destructure the current record. The
second component is the `{ pointValue, coinCount }` the popup captures. -/
def openPopup (luck : String → Rat) (s : GameState) (i j : Int) :
    GameState × CacheRecord :=
  match alookup s.cacheState (cellKey i j) with
  | some r => (s, r)
  | none =>
    let r := initialRecord luck i j
    ({ s with cacheState := aset s.cacheState (cellKey i j) r }, r)

/-- The collect click handler of `main.ts` lines 107-118. The guard and the
decrement read the live `cacheState[cacheKey].coinCount`; `pv` is the
`pointValue` the popup destructured at open (line 90). The entry is always
present when a popup's handler runs (materialized at lines 84-89); the
`none` branch makes the lookup total. -/
def collectClick (s : GameState) (i j : Int) (pv : Int) : GameState :=
  match alookup s.cacheState (cellKey i j) with
  | none => s
  | some r =>
    if 0 < r.coinCount then
      { cacheState := aset s.cacheState (cellKey i j) ⟨r.pointValue, r.coinCount - 1⟩,
        playerPoints := s.playerPoints + pv,
        playerCoins := s.playerCoins + 1 }
    else s

/-- The deposit click handler of `main.ts` lines 121-131: guarded by
`playerCoins > 0`, it increments the live stored coin count and decrements
the wallet; points are untouched. -/
def depositClick (s : GameState) (i j : Int) : GameState :=
  if 0 < s.playerCoins then
    match alookup s.cacheState (cellKey i j) with
    | none => s
    | some r =>
      { cacheState := aset s.cacheState (cellKey i j) ⟨r.pointValue, r.coinCount + 1⟩,
        playerPoints := s.playerPoints,
        playerCoins := s.playerCoins - 1 }
  else s

/-- `updateCaches` (`main.ts` lines 146-157): scan the square window
`playerCell ± NEIGHBORHOOD_SIZE` (both loops inclusive) and spawn a cache at
every cell passing the existence check. Returns the spawned cells. -/
def updateCaches (luck : String → Rat) (pci pcj : Int) : List (Int × Int) :=
  (intRange (pci - NEIGHBORHOOD_SIZE) (pci + NEIGHBORHOOD_SIZE)).flatMap fun i =>
    (intRange (pcj - NEIGHBORHOOD_SIZE) (pcj + NEIGHBORHOOD_SIZE)).flatMap fun j =>
      if cacheExists luck i j then [(i, j)] else []

/-- A player interaction on the `main.ts` state: opening a cache's popup at
a cell, or clicking its collect/deposit button. A click happens inside an
open popup, so applying a click first evaluates the popup callback (which
materializes the entry and captures `pointValue`), then runs the handler. -/
inductive Op where
  | popupOpen (i j : Int)
  | collect (i j : Int)
  | deposit (i j : Int)

/-- Apply one interaction. -/
def applyOp (luck : String → Rat) (s : GameState) : Op → GameState
  | .popupOpen i j => (openPopup luck s i j).1
  | .collect i j =>
    let t := openPopup luck s i j
    collectClick t.1 i j t.2.pointValue
  | .deposit i j =>
    let t := openPopup luck s i j
    depositClick t.1 i j

/-- Apply a sequence of interactions. -/
def applyOps (luck : String → Rat) (s : GameState) (ops : List Op) : GameState :=
  ops.foldl (applyOp luck) s

/-- The non-negativity invariant: the wallet and every stored cache coin
count are `≥ 0`. -/
def Inv (s : GameState) : Prop :=
  0 ≤ s.playerCoins ∧ ∀ e ∈ s.cacheState, 0 ≤ e.2.coinCount

end Main

namespace ExampleVariant

/-- The neighborhood scan of `example.ts` lines 126-136 (the same loop shape
as `part_001` lines 211-220 and 527-534): both loops run
`for (let v = -NEIGHBORHOOD_SIZE; v < NEIGHBORHOOD_SIZE; v++)` — the upper
bound is exclusive. With the player at cell `(0,0)`, the cells passing the
existence check are spawned. Returns the spawned cells. -/
def scan (luck : String → Rat) : List (Int × Int) :=
  (intRangeLt (-NEIGHBORHOOD_SIZE) NEIGHBORHOOD_SIZE).flatMap fun i =>
    (intRangeLt (-NEIGHBORHOOD_SIZE) NEIGHBORHOOD_SIZE).flatMap fun j =>
      if cacheExists luck i j then [(i, j)] else []

end ExampleVariant

namespace Store

/-- `generateCoins = () => Math.floor(Math.random() * 10) + 1`
(`part_001` line 55). `rnd` is the `Math.random()` sample consumed by the
call, an arbitrary value in `[0,1)`. -/
def generateCoins (rnd : Rat) : Int := ⌊rnd * 10⌋ + 1

/-- Store key `` `${lat}:${lng}` `` (`part_001` line 144). -/
def storeKey (lat lng : Rat) : String := toString lat ++ ":" ++ toString lng

/-- Mutable state of the `part_001` `CacheMemento` variant: the
`cacheStates` map (lines 112-129) and the point/coin counters (lines 49-50). -/
structure StoreState where
  cacheStates : List (String × CacheRecord)
  playerPoints : Int
  playerCoins : Int
deriving DecidableEq

/-- Evaluation of the popup callback of `part_001` lines 143-155: look the
key up in `CacheMemento`; if absent, build the state from
`luck([lat, lng, "initialValue"].toString())` and `generateCoins()` and save
it. The second component is the `{ pointValue, coinCount }` snapshot the
popup destructures into `const { pointValue, coinCount } = state` —
`coinCount` is a captured primitive, not a live reference. -/
def openPopup (luck : String → Rat) (rnd : Rat) (s : StoreState)
    (lat lng : Rat) : StoreState × CacheRecord :=
  match alookup s.cacheStates (storeKey lat lng) with
  | some st => (s, st)
  | none =>
    let st : CacheRecord :=
      ⟨⌊luck (latLngTagKey lat lng "initialValue") * 100⌋, generateCoins rnd⟩
    ({ s with cacheStates := aset s.cacheStates (storeKey lat lng) st }, st)

/-- The collect click handler of `part_001` lines 165-176. The guard tests
and the wallet receives the `coinCount` captured at popup open (`captured`);
`state.coinCount = 0` writes through the shared `state` object, i.e. the
store's current entry for the key. The entry is always present when the
handler runs (saved at open, lines 147-153). -/
def collectClick (s : StoreState) (key : String) (captured : Int) : StoreState :=
  if 0 < captured then
    match alookup s.cacheStates key with
    | none => s
    | some r =>
      { cacheStates := aset s.cacheStates key ⟨r.pointValue, 0⟩,
        playerPoints := s.playerPoints,
        playerCoins := s.playerCoins + captured }
  else s

/-- The deposit click handler of `part_001` lines 179-190:
`state.coinCount += playerCoins; playerCoins = 0`, through the live store
entry, guarded by `playerCoins > 0`. -/
def depositClick (s : StoreState) (key : String) : StoreState :=
  if 0 < s.playerCoins then
    match alookup s.cacheStates key with
    | none => s
    | some r =>
      { cacheStates := aset s.cacheStates key ⟨r.pointValue, r.coinCount + s.playerCoins⟩,
        playerPoints := s.playerPoints,
        playerCoins := 0 }
  else s

/-- The existence decision of the `part_001` scan (line 216):
`luck([lat, lng].toString()) < CACHE_SPAWN_PROBABILITY`, where `lat`/`lng`
are the raw scan position `player + offset * TILE_DEGREES` — the oracle key
is built from the player's position, not from cell indices. -/
def cacheExistsAtPos (luck : String → Rat) (lat lng : Rat) : Bool :=
  decide (luck (latLngKey lat lng) < CACHE_SPAWN_PROBABILITY)

end Store

namespace Flyweight

/-- `cellSize = 0.0001` (`part_001` lines 84 and 563). -/
def cellSize : Rat := mkRat 1 10000

/-- A `Coordinate` grid cell (`part_001` lines 58-63 and 537-540). -/
structure Coordinate where
  i : Int
  j : Int
deriving DecidableEq

/-- Registry key `` `${i}:${j}` `` (`part_001` lines 87 and 566). -/
def coordKey (i j : Int) : String := toString i ++ ":" ++ toString j

/-- `CoordinateFactory.getCoordinate` (`part_001` lines 82-95 and 561-574):
floor the coordinates, and return the registry entry for the key, storing a
fresh `Coordinate` first if the key is absent. Returns the updated registry
and the canonical coordinate. -/
def getCoordinate (reg : List (String × Coordinate)) (lat lng : Rat) :
    List (String × Coordinate) × Coordinate :=
  let i := ⌊lat / cellSize⌋
  let j := ⌊lng / cellSize⌋
  let key := coordKey i j
  match alookup reg key with
  | some c => (reg, c)
  | none => (aset reg key ⟨i, j⟩, ⟨i, j⟩)

/-- A sequence of further `getCoordinate` calls threaded through the
registry. -/
def applyCalls (reg : List (String × Coordinate)) (calls : List (Rat × Rat)) :
    List (String × Coordinate) :=
  calls.foldl (fun r p => (getCoordinate r p.1 p.2).1) reg

end Flyweight

namespace Persist

/-- Runtime JS values as far as `saveState`/`loadState` manipulate them:
the JSON primitives (numbers idealized as `Rat`), plus `undefined`, which a
property access or a destructuring of a missing field produces. A persisted
blob is the `JSON.parse` of the stored string, so it never contains
`undef`; `undef` arises only during `loadState`'s own field accesses. -/
inductive JVal where
  | num (q : Rat)
  | str (s : String)
  | bool (b : Bool)
  | arr (xs : List JVal)
  | obj (fs : List (String × JVal))
  | null
  | undefined

/-- Property access `v.name`: throws `TypeError` on `null`/`undefined`,
returns the field (or `undefined` when missing) on objects, and `undefined`
on other primitives. -/
def jsGet : JVal → String → Except String JVal
  | .null, _ => .error "TypeError"
  | .undefined, _ => .error "TypeError"
  | .obj fs, k => .ok ((alookup fs k).getD .undefined)
  | _, _ => .ok .undefined

/-- JS truthiness, as tested by `if (cacheStates)` (`part_001` line 319). -/
def jsTruthy : JVal → Bool
  | .null => false
  | .undefined => false
  | .bool b => b
  | .num q => decide (q ≠ 0)
  | .str s => decide (s ≠ "")
  | .arr _ => true
  | .obj _ => true

/-- `leaflet.latLng(a, b)` on a restored value: accepts numbers and throws
leaflet's invalid-LatLng error otherwise (leaflet rejects coordinates whose
numeric coercion is `NaN`, which is what `undefined` or an object coerces
to; coercible non-number primitives are not exercised by the blobs the game
writes and are not modelled). -/
def toNum : JVal → Except String Rat
  | .num q => .ok q
  | _ => .error "InvalidLatLng"

/-- One entry of the `cacheStates.forEach(([key, value]) => ...)` loop
(`part_001` lines 320-324): array destructuring of the element. A
non-array element is not iterable and throws (string elements, which JS
would iterate character-wise, are not exercised by the game's blobs and
are not modelled). -/
def decodeEntryPair : JVal → Except String (JVal × JVal)
  | .arr xs => .ok (xs.getD 0 .undefined, xs.getD 1 .undefined)
  | _ => .error "TypeError"

/-- The `forEach` over the restored `cacheStates` array: each element is
destructured and saved into the cleared `CacheMemento`. -/
def parseEntries : List JVal → Except String (List (JVal × JVal))
  | [] => .ok []
  | x :: xs => do
    let p ← decodeEntryPair x
    let ps ← parseEntries xs
    pure (p :: ps)

/-- `history.map((latlng) => leaflet.latLng(latlng.lat, latlng.lng))`
(`part_001` lines 327-329), element by element. -/
def parseHistory : List JVal → Except String (List (Rat × Rat))
  | [] => .ok []
  | x :: xs => do
    let a ← jsGet x "lat"
    let b ← jsGet x "lng"
    let aq ← toNum a
    let bq ← toNum b
    let rest ← parseHistory xs
    pure ((aq, bq) :: rest)

/-- The `PlayerSession` data `saveState` persists: player location, the two
counters, and the movement history (`part_001` lines 291-300). -/
structure Session where
  lat : Rat
  lng : Rat
  playerPoints : Int
  playerCoins : Int
  movementHistory : List (Rat × Rat)

/-- JSON encoding of a stored `CacheRecord` value. -/
def encodeRecord (r : CacheRecord) : JVal :=
  .obj [("pointValue", .num r.pointValue), ("coinCount", .num r.coinCount)]

/-- Reading a restored store value's fields back, as the popup handlers do
(`state.pointValue`, `state.coinCount`), into the integer counters the game
arithmetic uses. -/
def decodeRecord (v : JVal) : Option CacheRecord :=
  match v with
  | .obj fs =>
    match alookup fs "pointValue", alookup fs "coinCount" with
    | some (.num p), some (.num c) => some ⟨⌊p⌋, ⌊c⌋⟩
    | _, _ => none
  | _ => none

/-- `saveState` (`part_001` lines 291-300): the `JSON.stringify`d blob, as
the structured value it round-trips through (`JSON.parse ∘ JSON.stringify`
is the identity on this object/array/number/string fragment). -/
def saveState (sess : Session) (entries : List (String × CacheRecord)) : JVal :=
  .obj [
    ("playerLocation", .obj [("lat", .num sess.lat), ("lng", .num sess.lng)]),
    ("playerPoints", .num sess.playerPoints),
    ("playerCoins", .num sess.playerCoins),
    ("cacheStates", .arr (entries.map fun e => .arr [.str e.1, encodeRecord e.2])),
    ("movementHistory",
      .arr (sess.movementHistory.map fun c => .obj [("lat", .num c.1), ("lng", .num c.2)]))
  ]

/-- What `loadState` leaves behind on success: the restored location, the
raw (unvalidated) values assigned to `playerPoints`/`playerCoins`, the
entries bulk-loaded into `CacheMemento`, and the rebuilt movement history. -/
structure Loaded where
  lat : Rat
  lng : Rat
  playerPoints : JVal
  playerCoins : JVal
  entries : List (JVal × JVal)
  movementHistory : List (Rat × Rat)

/-- `loadState` (`part_001` lines 302-341), for a present, parsed blob:
destructure the five fields (`undefined` when missing), rebuild the
location through `leaflet.latLng`, assign points and coins with no
validation, bulk-load `cacheStates` into the cleared store only when the
field is truthy, and map the history back through `leaflet.latLng`. An
`Except.error` is an uncaught thrown exception — `loadState` has no
try/catch and no error type of its own. -/
def loadState (blob : JVal) : Except String Loaded :=
  Except.bind (jsGet blob "playerLocation") fun loc =>
  Except.bind (jsGet blob "playerPoints") fun points =>
  Except.bind (jsGet blob "playerCoins") fun coins =>
  Except.bind (jsGet blob "cacheStates") fun cacheStates =>
  Except.bind (jsGet blob "movementHistory") fun history =>
  Except.bind (jsGet loc "lat") fun latv =>
  Except.bind (jsGet loc "lng") fun lngv =>
  Except.bind (toNum latv) fun latq =>
  Except.bind (toNum lngv) fun lngq =>
  Except.bind (if jsTruthy cacheStates then
      match cacheStates with
      | .arr xs => parseEntries xs
      | _ => .error "TypeError"
    else .ok []) fun entries =>
  Except.bind (match history with
      | .arr xs => parseHistory xs
      | _ => .error "TypeError") fun hist =>
  .ok ⟨latq, lngq, points, coins, entries, hist⟩

/-- A well-formed blob in which only the `cacheStates` field is missing. -/
def blobMissingCacheStates : JVal :=
  .obj [("playerLocation", .obj [("lat", .num 1), ("lng", .num 2)]),
        ("playerPoints", .num 3),
        ("playerCoins", .num 4),
        ("movementHistory", .arr [.obj [("lat", .num 5), ("lng", .num 6)]])]

end Persist

/-! ## Theorems -/

theorem alookup_aset_self {α : Type} (l : List (String × α)) (k : String) (v : α) :
    alookup (aset l k v) k = some v := by
  induction l with
  | nil => simp [aset, alookup]
  | cons e es ih =>
    by_cases h : e.1 = k
    · simp [aset, h, alookup]
    · simp [aset, h, alookup, ih]

theorem alookup_aset_ne {α : Type} (l : List (String × α)) {k k' : String}
    (h : k' ≠ k) (v : α) : alookup (aset l k v) k' = alookup l k' := by
  induction l with
  | nil => simp [aset, alookup, Ne.symm h]
  | cons e es ih =>
    by_cases he : e.1 = k
    · subst he
      simp [aset, alookup, Ne.symm h]
    · simp only [aset, if_neg he, alookup]
      by_cases he' : e.1 = k'
      · simp [he']
      · simp [he', ih]

theorem mem_aset {α : Type} (l : List (String × α)) (k : String) (v : α) :
    ∀ e ∈ aset l k v, e ∈ l ∨ e.2 = v := by
  induction l with
  | nil => simp [aset]
  | cons x xs ih =>
    by_cases h : x.1 = k
    · intro e he
      simp only [aset, if_pos h] at he
      rcases List.mem_cons.mp he with h1 | h1
      · right; rw [h1]
      · left; exact List.mem_cons_of_mem _ h1
    · intro e he
      simp only [aset, if_neg h] at he
      rcases List.mem_cons.mp he with h1 | h1
      · left; rw [h1]; exact List.mem_cons_self _ _
      · rcases ih e h1 with h2 | h2
        · left; exact List.mem_cons_of_mem _ h2
        · right; exact h2

theorem alookup_mem {α : Type} {l : List (String × α)} {k : String} {v : α}
    (h : alookup l k = some v) : ∃ e ∈ l, e.2 = v := by
  induction l with
  | nil => exact Option.noConfusion h
  | cons e es ih =>
    by_cases he : e.1 = k
    · refine ⟨e, List.mem_cons_self _ _, ?_⟩
      have := h
      simp only [alookup, if_pos he] at this
      exact Option.some.inj this
    · obtain ⟨e', he', hv⟩ := ih (by simpa [alookup, he] using h)
      exact ⟨e', List.mem_cons_of_mem _ he', hv⟩

theorem mem_intRange {lo hi a : Int} : a ∈ intRange lo hi ↔ lo ≤ a ∧ a ≤ hi := by
  simp only [intRange, List.mem_map, List.mem_range]
  constructor
  · rintro ⟨k, hk, rfl⟩; omega
  · intro h
    exact ⟨(a - lo).toNat, by omega, by omega⟩

theorem mem_updateCaches {luck : String → Rat} {pci pcj i j : Int} :
    (i, j) ∈ Main.updateCaches luck pci pcj ↔
      pci - 8 ≤ i ∧ i ≤ pci + 8 ∧ pcj - 8 ≤ j ∧ j ≤ pcj + 8 ∧
      cacheExists luck i j = true := by
  simp only [Main.updateCaches, List.mem_flatMap, mem_intRange, NEIGHBORHOOD_SIZE]
  constructor
  · rintro ⟨a, ha, b, hb, hmem⟩
    by_cases h : cacheExists luck a b
    · simp only [if_pos h, List.mem_singleton, Prod.mk.injEq] at hmem
      obtain ⟨rfl, rfl⟩ := hmem
      exact ⟨ha.1, ha.2, hb.1, hb.2, h⟩
    · simp [if_neg h] at hmem
  · rintro ⟨h1, h2, h3, h4, h5⟩
    exact ⟨i, ⟨h1, h2⟩, j, ⟨h3, h4⟩, by simp [h5]⟩

theorem getCoordinate_lookup (reg : List (String × Flyweight.Coordinate))
    (lat lng : Rat) :
    alookup (Flyweight.getCoordinate reg lat lng).1
        (Flyweight.coordKey ⌊lat / Flyweight.cellSize⌋ ⌊lng / Flyweight.cellSize⌋) =
      some (Flyweight.getCoordinate reg lat lng).2 := by
  unfold Flyweight.getCoordinate
  cases h : alookup reg
      (Flyweight.coordKey ⌊lat / Flyweight.cellSize⌋ ⌊lng / Flyweight.cellSize⌋) with
  | some c => simp [h]
  | none => simp [h, alookup_aset_self]

theorem getCoordinate_stable {reg : List (String × Flyweight.Coordinate)}
    {k : String} {c : Flyweight.Coordinate} (h : alookup reg k = some c)
    (lat lng : Rat) : alookup (Flyweight.getCoordinate reg lat lng).1 k = some c := by
  unfold Flyweight.getCoordinate
  cases h0 : alookup reg
      (Flyweight.coordKey ⌊lat / Flyweight.cellSize⌋ ⌊lng / Flyweight.cellSize⌋) with
  | some c' => simpa [h0] using h
  | none =>
    have hne : k ≠ Flyweight.coordKey ⌊lat / Flyweight.cellSize⌋ ⌊lng / Flyweight.cellSize⌋ := by
      intro he; rw [he, h0] at h; exact Option.noConfusion h
    simp only [h0]
    rw [alookup_aset_ne _ hne]
    exact h

theorem getCoordinate_of_found {reg : List (String × Flyweight.Coordinate)}
    {lat lng : Rat} {c : Flyweight.Coordinate}
    (h : alookup reg (Flyweight.coordKey ⌊lat / Flyweight.cellSize⌋ ⌊lng / Flyweight.cellSize⌋) =
      some c) :
    Flyweight.getCoordinate reg lat lng = (reg, c) := by
  unfold Flyweight.getCoordinate
  simp only [h]

theorem applyCalls_stable {reg : List (String × Flyweight.Coordinate)}
    {k : String} {c : Flyweight.Coordinate} (h : alookup reg k = some c)
    (calls : List (Rat × Rat)) :
    alookup (Flyweight.applyCalls reg calls) k = some c := by
  induction calls generalizing reg with
  | nil => exact h
  | cons p ps ih => exact ih (getCoordinate_stable h p.1 p.2)

theorem parseEntries_encode (l : List (String × CacheRecord)) :
    Persist.parseEntries (l.map fun e => .arr [.str e.1, Persist.encodeRecord e.2]) =
      .ok (l.map fun e => (Persist.JVal.str e.1, Persist.encodeRecord e.2)) := by
  induction l with
  | nil => rfl
  | cons e es ih =>
    simp only [List.map_cons, Persist.parseEntries, Persist.decodeEntryPair, ih]
    rfl

theorem parseHistory_encode (l : List (Rat × Rat)) :
    Persist.parseHistory
        (l.map fun c => Persist.JVal.obj [("lat", .num c.1), ("lng", .num c.2)]) =
      .ok l := by
  induction l with
  | nil => rfl
  | cons c cs ih =>
    simp only [List.map_cons, Persist.parseHistory, Persist.jsGet, Persist.toNum, ih]
    rfl

theorem decodeRecord_encode (r : CacheRecord) :
    Persist.decodeRecord (Persist.encodeRecord r) = some r := by
  simp [Persist.decodeRecord, Persist.encodeRecord, alookup]

theorem initialRecord_coinCount_nonneg {luck : String → Rat}
    (hl : ∀ k, 0 ≤ luck k) (i j : Int) :
    0 ≤ (Main.initialRecord luck i j).coinCount :=
  Int.floor_nonneg.mpr (mul_nonneg (hl _) (by norm_num))

theorem openPopup_inv {luck : String → Rat} (hl : ∀ k, 0 ≤ luck k)
    {s : Main.GameState} (hs : Main.Inv s) (i j : Int) :
    Main.Inv (Main.openPopup luck s i j).1 := by
  unfold Main.openPopup
  cases h : alookup s.cacheState (cellKey i j) with
  | some r => exact hs
  | none =>
    refine ⟨hs.1, ?_⟩
    intro e he
    simp only at he
    rcases mem_aset _ _ _ e he with hmem | hval
    · exact hs.2 e hmem
    · rw [hval]
      exact initialRecord_coinCount_nonneg hl i j

theorem collectClick_inv {s : Main.GameState} (hs : Main.Inv s) (i j pv : Int) :
    Main.Inv (Main.collectClick s i j pv) := by
  unfold Main.collectClick
  cases h : alookup s.cacheState (cellKey i j) with
  | none => exact hs
  | some r =>
    by_cases hc : 0 < r.coinCount
    · simp only [if_pos hc]
      refine ⟨?_, ?_⟩
      · show 0 ≤ s.playerCoins + 1
        have := hs.1; omega
      · intro e he
        rcases mem_aset _ _ _ e he with hmem | hval
        · exact hs.2 e hmem
        · rw [hval]
          show 0 ≤ r.coinCount - 1
          omega
    · simp only [if_neg hc]
      exact hs

theorem depositClick_inv {s : Main.GameState} (hs : Main.Inv s) (i j : Int) :
    Main.Inv (Main.depositClick s i j) := by
  unfold Main.depositClick
  by_cases hw : 0 < s.playerCoins
  · simp only [if_pos hw]
    cases h : alookup s.cacheState (cellKey i j) with
    | none => exact hs
    | some r =>
      obtain ⟨e0, he0, hv0⟩ := alookup_mem h
      have hr : 0 ≤ r.coinCount := by
        have := hs.2 e0 he0
        rw [hv0] at this
        exact this
      refine ⟨?_, ?_⟩
      · show 0 ≤ s.playerCoins - 1
        omega
      · intro e he
        rcases mem_aset _ _ _ e (by simpa using he) with hmem | hval
        · exact hs.2 e hmem
        · rw [hval]
          show 0 ≤ r.coinCount + 1
          omega
  · simp only [if_neg hw]
    exact hs

theorem applyOp_inv {luck : String → Rat} (hl : ∀ k, 0 ≤ luck k)
    {s : Main.GameState} (hs : Main.Inv s) (op : Main.Op) :
    Main.Inv (Main.applyOp luck s op) := by
  cases op with
  | popupOpen i j => exact openPopup_inv hl hs i j
  | collect i j => exact collectClick_inv (openPopup_inv hl hs i j) i j _
  | deposit i j => exact depositClick_inv (openPopup_inv hl hs i j) i j

theorem applyOps_inv {luck : String → Rat} (hl : ∀ k, 0 ≤ luck k)
    {s : Main.GameState} (hs : Main.Inv s) (ops : List Main.Op) :
    Main.Inv (Main.applyOps luck s ops) := by
  induction ops generalizing s with
  | nil => exact hs
  | cons op ops ih => exact ih (applyOp_inv hl hs op)

theorem depositClick_points (t : Main.GameState) (a b : Int) :
    (Main.depositClick t a b).playerPoints = t.playerPoints := by
  unfold Main.depositClick
  by_cases h : 0 < t.playerCoins
  · simp only [if_pos h]
    cases alookup t.cacheState (cellKey a b) <;> rfl
  · simp [h]

theorem collect_iterate_points (i j pv : Int) (k : Nat) :
    ∀ (s : Main.GameState) (c : Int),
      alookup s.cacheState (cellKey i j) = some ⟨pv, c⟩ → (k : Int) ≤ c →
      ((fun t => Main.collectClick t i j pv)^[k] s).playerPoints =
        s.playerPoints + k * pv := by
  induction k with
  | zero => intro s c h hk; simp
  | succ k ih =>
    intro s c h hk
    have hc : 0 < c := by push_cast at hk; omega
    rw [Function.iterate_succ_apply]
    have hstep : Main.collectClick s i j pv =
        ⟨aset s.cacheState (cellKey i j) ⟨pv, c - 1⟩,
         s.playerPoints + pv, s.playerCoins + 1⟩ := by
      simp [Main.collectClick, h, hc]
    rw [hstep]
    rw [ih _ (c - 1) (alookup_aset_self s.cacheState (cellKey i j) ⟨pv, c - 1⟩)
      (by push_cast at hk ⊢; omega)]
    push_cast
    ring

/-! ## Claims -/

/-- C1 (amended): in the `main.ts` variant the claim holds — for a cell with
no `cacheState` entry, the materialized initial record is a function of the
oracle and the cell indices alone, so any two evaluations (from any two
states without an entry, e.g. across process restarts, and on immediate
re-evaluation) yield equal `pointValue` and equal `coinCount`. In the
`part_001` store variant only `pointValue` is re-derivable; `coinCount`
comes from `Math.random` (see the counterexample). -/
theorem C1_main_initialRecord_deterministic (luck : String → Rat)
    (s₁ s₂ : Main.GameState) (i j : Int)
    (h₁ : alookup s₁.cacheState (cellKey i j) = none)
    (h₂ : alookup s₂.cacheState (cellKey i j) = none) :
    (Main.openPopup luck s₁ i j).2 = (Main.openPopup luck s₂ i j).2 ∧
    (Main.openPopup luck (Main.openPopup luck s₁ i j).1 i j).2 =
      (Main.openPopup luck s₁ i j).2 := by
  constructor
  · simp [Main.openPopup, h₁, h₂]
  · simp [Main.openPopup, h₁, alookup_aset_self]

/-- C1 witness: both hypotheses hold at the startup state, and the theorem
applies there. -/
theorem C1_witness :
    alookup Main.initialState.cacheState (cellKey 0 0) = none ∧
    ((Main.openPopup luckZero Main.initialState 0 0).2 =
        (Main.openPopup luckZero Main.initialState 0 0).2 ∧
      (Main.openPopup luckZero (Main.openPopup luckZero Main.initialState 0 0).1 0 0).2 =
        (Main.openPopup luckZero Main.initialState 0 0).2) :=
  ⟨rfl, C1_main_initialRecord_deterministic luckZero
    Main.initialState Main.initialState 0 0 rfl rfl⟩

/-- C1 counterexample: in the `part_001` store variant, two first
materializations of cell `(0,0)`'s record with no store entry (two fresh
sessions) consume different `Math.random` samples (`0` and `1/2`) and
return different `coinCount`s (`1` and `6`), falsifying the claim that
every evaluation of the initial record is identical across restarts. -/
theorem C1_counterexample :
    (Store.openPopup luckZero 0 ⟨[], 0, 0⟩ 0 0).2.coinCount ≠
    (Store.openPopup luckZero (mkRat 1 2) ⟨[], 0, 0⟩ 0 0).2.coinCount := by
  have h1 : Store.generateCoins 0 = 1 := by
    simp [Store.generateCoins]
  have h2 : Store.generateCoins (mkRat 1 2) = 6 := by
    unfold Store.generateCoins
    rw [Rat.mkRat_eq_div]
    norm_num
  simp [Store.openPopup, alookup, h1, h2]

/-- C2 (amended): in `main.ts` the existence decision for a cell is
`luck([i,j].toString()) < CACHE_SPAWN_PROBABILITY` on the absolute cell
indices alone: a cell inside the scan window is spawned iff that check
passes, independently of which player cell the scan is centered on, so
re-scanning after the player moves yields the same existence result. In the
`part_001` variant the key is built from the raw scan position instead (see
the counterexample). -/
theorem C2_main_rescan_stable (luck : String → Rat) (p₁ p₂ q₁ q₂ i j : Int)
    (h₁ : p₁ - 8 ≤ i ∧ i ≤ p₁ + 8 ∧ p₂ - 8 ≤ j ∧ j ≤ p₂ + 8)
    (h₂ : q₁ - 8 ≤ i ∧ i ≤ q₁ + 8 ∧ q₂ - 8 ≤ j ∧ j ≤ q₂ + 8) :
    ((i, j) ∈ Main.updateCaches luck p₁ p₂ ↔ cacheExists luck i j = true) ∧
    ((i, j) ∈ Main.updateCaches luck p₁ p₂ ↔ (i, j) ∈ Main.updateCaches luck q₁ q₂) := by
  obtain ⟨a1, a2, a3, a4⟩ := h₁
  obtain ⟨b1, b2, b3, b4⟩ := h₂
  constructor
  · rw [mem_updateCaches]; tauto
  · rw [mem_updateCaches, mem_updateCaches]; tauto

/-- C2 witness: cell `(0,0)` lies in the windows of player cells `(0,0)`
and `(5,5)`, and the theorem applies there. -/
theorem C2_witness :
    ((0:Int) - 8 ≤ 0 ∧ (0:Int) ≤ 0 + 8 ∧ (0:Int) - 8 ≤ 0 ∧ (0:Int) ≤ 0 + 8) ∧
    ((5:Int) - 8 ≤ 0 ∧ (0:Int) ≤ 5 + 8 ∧ (5:Int) - 8 ≤ 0 ∧ (0:Int) ≤ 5 + 8) ∧
    (((0, 0) ∈ Main.updateCaches luckZero 0 0 ↔ cacheExists luckZero 0 0 = true) ∧
      ((0, 0) ∈ Main.updateCaches luckZero 0 0 ↔
        (0, 0) ∈ Main.updateCaches luckZero 5 5)) :=
  ⟨by decide, by decide,
   C2_main_rescan_stable luckZero 0 0 5 5 0 0 (by decide) (by decide)⟩

/-- C2 counterexample: in the `part_001` variant, the existence key is
built from the raw scan position (player position plus offset). The two
positions `(0, 0)` and `(1/20000, 0)` lie in the same cell `(0,0)`, but
with the oracle `luckSplit` the first passes the existence check and the
second fails it: the decision is not a function of the cell, and depends
on the player's position. -/
theorem C2_counterexample :
    Store.cacheExistsAtPos luckSplit 0 0 = true ∧
    Store.cacheExistsAtPos luckSplit (mkRat 1 20000) 0 = false ∧
    latLngToCell (mkRat 1 20000) 0 = latLngToCell 0 0 := by
  refine ⟨by decide, by decide, ?_⟩
  simp only [latLngToCell, TILE_DEGREES, Prod.mk.injEq]
  constructor
  · rw [Rat.mkRat_eq_div, Rat.mkRat_eq_div]
    norm_num
  · trivial

/-- C3 (code-bug evaluation): in the `part_001` store variant, a cache
stored as `⟨pointValue 7, coinCount 5⟩` with an empty wallet. Opening its
popup captures `coinCount = 5`. The first collect click moves all 5 coins
(wallet 5, cache 0 — consistent with the claim for `n = 5`). The second
click is a collect from a cache whose current `coinCount` is `0`, which the
claim requires to be a no-op; but the handler tests and adds the *captured*
count, so the wallet becomes 10 while the cache stays 0 — 5 coins are
created from nothing. -/
theorem C3_store_doubleCollect_eval :
    (Store.openPopup luckZero 0 ⟨[("0:0", ⟨7, 5⟩)], 0, 0⟩ 0 0).2 = ⟨7, 5⟩ ∧
    (Store.collectClick ⟨[("0:0", ⟨7, 5⟩)], 0, 0⟩ "0:0" 5).playerCoins = 5 ∧
    alookup (Store.collectClick ⟨[("0:0", ⟨7, 5⟩)], 0, 0⟩ "0:0" 5).cacheStates "0:0" =
      some ⟨7, 0⟩ ∧
    (Store.collectClick (Store.collectClick ⟨[("0:0", ⟨7, 5⟩)], 0, 0⟩ "0:0" 5)
        "0:0" 5).playerCoins = 10 ∧
    alookup (Store.collectClick (Store.collectClick ⟨[("0:0", ⟨7, 5⟩)], 0, 0⟩ "0:0" 5)
        "0:0" 5).cacheStates "0:0" = some ⟨7, 0⟩ := by
  decide

/-- C4: deposit conservation in both variants. In `main.ts` a deposit moves
`n = 1` coin: the stored coin count becomes `c + 1`, the wallet decreases
by 1, and a deposit with an empty wallet is refused unchanged. In the
`part_001` store variant a deposit moves `n = walletCoins` coins: the
stored count becomes `c' + walletCoins`, the wallet becomes 0, and an
empty wallet is likewise refused. -/
theorem C4_deposit_conservation
    (s : Main.GameState) (i j pv c : Int)
    (h : alookup s.cacheState (cellKey i j) = some ⟨pv, c⟩)
    (t : Store.StoreState) (key : String) (pv' c' : Int)
    (h' : alookup t.cacheStates key = some ⟨pv', c'⟩) :
    (s.playerCoins = 0 → Main.depositClick s i j = s) ∧
    (0 < s.playerCoins →
      alookup (Main.depositClick s i j).cacheState (cellKey i j) = some ⟨pv, c + 1⟩ ∧
      (Main.depositClick s i j).playerCoins = s.playerCoins - 1 ∧
      (Main.depositClick s i j).playerPoints = s.playerPoints) ∧
    (t.playerCoins = 0 → Store.depositClick t key = t) ∧
    (0 < t.playerCoins →
      alookup (Store.depositClick t key).cacheStates key = some ⟨pv', c' + t.playerCoins⟩ ∧
      (Store.depositClick t key).playerCoins = 0) := by
  refine ⟨?_, ?_, ?_, ?_⟩
  · intro hz
    simp [Main.depositClick, hz]
  · intro hw
    have hd : Main.depositClick s i j =
        ⟨aset s.cacheState (cellKey i j) ⟨pv, c + 1⟩,
         s.playerPoints, s.playerCoins - 1⟩ := by
      simp [Main.depositClick, hw, h]
    rw [hd]
    exact ⟨alookup_aset_self _ _ _, rfl, rfl⟩
  · intro hz
    simp [Store.depositClick, hz]
  · intro hw
    have hd : Store.depositClick t key =
        ⟨aset t.cacheStates key ⟨pv', c' + t.playerCoins⟩,
         t.playerPoints, 0⟩ := by
      simp [Store.depositClick, hw, h']
    rw [hd]
    exact ⟨alookup_aset_self _ _ _, rfl⟩

/-- C4 witness: both entry-present hypotheses hold at concrete states, and
the theorem applies there. -/
theorem C4_witness :
    alookup ([("0,0", (⟨3, 2⟩ : CacheRecord))]) (cellKey 0 0) = some ⟨3, 2⟩ ∧
    alookup ([("a", (⟨4, 5⟩ : CacheRecord))]) "a" = some ⟨4, 5⟩ ∧
    (((⟨[("0,0", ⟨3, 2⟩)], 0, 1⟩ : Main.GameState).playerCoins = 0 →
        Main.depositClick ⟨[("0,0", ⟨3, 2⟩)], 0, 1⟩ 0 0 = ⟨[("0,0", ⟨3, 2⟩)], 0, 1⟩) ∧
      (0 < (⟨[("0,0", ⟨3, 2⟩)], 0, 1⟩ : Main.GameState).playerCoins →
        alookup (Main.depositClick ⟨[("0,0", ⟨3, 2⟩)], 0, 1⟩ 0 0).cacheState (cellKey 0 0) =
          some ⟨3, 2 + 1⟩ ∧
        (Main.depositClick ⟨[("0,0", ⟨3, 2⟩)], 0, 1⟩ 0 0).playerCoins =
          (⟨[("0,0", ⟨3, 2⟩)], 0, 1⟩ : Main.GameState).playerCoins - 1 ∧
        (Main.depositClick ⟨[("0,0", ⟨3, 2⟩)], 0, 1⟩ 0 0).playerPoints =
          (⟨[("0,0", ⟨3, 2⟩)], 0, 1⟩ : Main.GameState).playerPoints) ∧
      ((⟨[("a", ⟨4, 5⟩)], 0, 2⟩ : Store.StoreState).playerCoins = 0 →
        Store.depositClick ⟨[("a", ⟨4, 5⟩)], 0, 2⟩ "a" = ⟨[("a", ⟨4, 5⟩)], 0, 2⟩) ∧
      (0 < (⟨[("a", ⟨4, 5⟩)], 0, 2⟩ : Store.StoreState).playerCoins →
        alookup (Store.depositClick ⟨[("a", ⟨4, 5⟩)], 0, 2⟩ "a").cacheStates "a" =
          some ⟨4, 5 + (⟨[("a", ⟨4, 5⟩)], 0, 2⟩ : Store.StoreState).playerCoins⟩ ∧
        (Store.depositClick ⟨[("a", ⟨4, 5⟩)], 0, 2⟩ "a").playerCoins = 0)) :=
  ⟨by decide, by decide,
   C4_deposit_conservation ⟨[("0,0", ⟨3, 2⟩)], 0, 1⟩ 0 0 3 2 (by decide)
     ⟨[("a", ⟨4, 5⟩)], 0, 2⟩ "a" 4 5 (by decide)⟩

/-- C5: starting from the startup state, every sequence of popup openings
and collect/deposit clicks (with an oracle obeying the spec's `[0,1)` range)
preserves the non-negativity invariant: the wallet and every stored cache
coin count stay `≥ 0`. Moreover a collect on a cache whose stored count is
not positive, and a deposit with a non-positive wallet, are refused as
silent no-ops returning the state unchanged. -/
theorem C5_nonneg_invariant (luck : String → Rat) (hl : ∀ k, 0 ≤ luck k)
    (ops : List Main.Op) :
    Main.Inv (Main.applyOps luck Main.initialState ops) ∧
    (∀ (s : Main.GameState) (i j pv : Int),
      (∀ r, alookup s.cacheState (cellKey i j) = some r → r.coinCount ≤ 0) →
      Main.collectClick s i j pv = s) ∧
    (∀ (s : Main.GameState) (i j : Int), s.playerCoins ≤ 0 →
      Main.depositClick s i j = s) := by
  refine ⟨applyOps_inv hl ⟨le_refl 0, by simp [Main.initialState]⟩ ops, ?_, ?_⟩
  · intro s i j pv hr
    unfold Main.collectClick
    cases h : alookup s.cacheState (cellKey i j) with
    | none => rfl
    | some r =>
      have := hr r h
      simp [show ¬ 0 < r.coinCount by omega]
  · intro s i j hw
    unfold Main.depositClick
    simp [show ¬ 0 < s.playerCoins by omega]

/-- C5 witness: the constant-zero oracle is in range, and the invariant
holds after a concrete interaction sequence. -/
theorem C5_witness :
    (∀ k, 0 ≤ luckZero k) ∧
    Main.Inv (Main.applyOps luckZero Main.initialState
      [Main.Op.popupOpen 0 0, Main.Op.collect 0 0, Main.Op.deposit 0 0]) :=
  ⟨fun _ => le_refl 0,
   (C5_nonneg_invariant luckZero (fun _ => le_refl 0) _).1⟩

/-- C6: the persistence round-trip. For every session (any location,
counters and movement history) and every store content — in particular the
empty store, a one-entry store, and stores whose keys come from negative or
positive cell indices — `loadState` on the blob `saveState` produced
succeeds and reproduces the location, the counters, the movement history,
and the store entry set; reading the restored entries' fields back yields
the original records field by field. -/
theorem C6_persistence_roundTrip (sess : Persist.Session)
    (entries : List (String × CacheRecord)) :
    Persist.loadState (Persist.saveState sess entries) =
      .ok ⟨sess.lat, sess.lng, .num sess.playerPoints, .num sess.playerCoins,
           entries.map (fun e => (Persist.JVal.str e.1, Persist.encodeRecord e.2)),
           sess.movementHistory⟩ ∧
    (entries.map (fun e => (Persist.JVal.str e.1, Persist.encodeRecord e.2))).map
        (fun p => (p.1, Persist.decodeRecord p.2)) =
      entries.map (fun e => (Persist.JVal.str e.1, some e.2)) := by
  constructor
  · simp only [Persist.loadState, Persist.saveState, Persist.jsGet, alookup,
      Persist.jsTruthy, Persist.toNum, String.reduceEq, reduceIte,
      Option.getD_some, Except.bind, parseEntries_encode, parseHistory_encode]
  · simp [List.map_map, Function.comp, decodeRecord_encode]

/-- C7 counterexample: a well-formed blob from which only the `cacheStates`
field is missing is *silently accepted* by `loadState` — it succeeds with an
empty entry set instead of failing with a `CorruptStateError`. -/
theorem C7_counterexample :
    Persist.loadState Persist.blobMissingCacheStates =
      .ok ⟨1, 2, .num 3, .num 4, [], [(5, 6)]⟩ := rfl

/-- C7 (amended): `loadState` has no `CorruptStateError` and no recovery
path. A blob missing `cacheStates` is silently accepted with an empty store;
a blob whose `playerLocation` has the wrong type throws leaflet's
invalid-LatLng error uncaught; a blob whose `movementHistory` has the wrong
type throws a `TypeError` uncaught; destructuring a `null` blob throws
uncaught. A fresh default session arises only when no blob is stored at
all (`loadState`'s `if (state)` guard). -/
theorem C7_amended_behavior :
    Persist.loadState Persist.blobMissingCacheStates =
      .ok ⟨1, 2, .num 3, .num 4, [], [(5, 6)]⟩ ∧
    Persist.loadState (.obj [("playerLocation", .num 0)]) = .error "InvalidLatLng" ∧
    Persist.loadState (.obj [("playerLocation", .obj [("lat", .num 1), ("lng", .num 2)]),
        ("playerPoints", .num 3), ("playerCoins", .num 4),
        ("cacheStates", .arr []), ("movementHistory", .num 7)]) = .error "TypeError" ∧
    Persist.loadState .null = .error "TypeError" :=
  ⟨rfl, rfl, rfl, rfl⟩

/-- C8: cell canonicalization is idempotent and coordinate-stable. If two
`(lat, lng)` pairs floor to the same `(i, j)` under the fixed cell size,
then `getCoordinate` on the second pair — after the first call and any
number of intervening calls — returns exactly the `Coordinate` the first
call returned: equal cells canonicalize to the same registry object, and
repeated lookups of the same cell return the same canonical cell. -/
theorem C8_canonicalize (reg : List (String × Flyweight.Coordinate))
    (lat₁ lng₁ lat₂ lng₂ : Rat) (calls : List (Rat × Rat))
    (h₁ : ⌊lat₁ / Flyweight.cellSize⌋ = ⌊lat₂ / Flyweight.cellSize⌋)
    (h₂ : ⌊lng₁ / Flyweight.cellSize⌋ = ⌊lng₂ / Flyweight.cellSize⌋) :
    (Flyweight.getCoordinate
        (Flyweight.applyCalls (Flyweight.getCoordinate reg lat₁ lng₁).1 calls)
        lat₂ lng₂).2 =
      (Flyweight.getCoordinate reg lat₁ lng₁).2 := by
  have hst := applyCalls_stable (getCoordinate_lookup reg lat₁ lng₁) calls
  rw [h₁, h₂] at hst
  rw [getCoordinate_of_found hst]

/-- C8 witness: the floor hypotheses hold (trivially) for the pair `(0,0)`
looked up twice around an intervening call, and the theorem applies there. -/
theorem C8_witness :
    (⌊(0:Rat) / Flyweight.cellSize⌋ = ⌊(0:Rat) / Flyweight.cellSize⌋) ∧
    (Flyweight.getCoordinate
        (Flyweight.applyCalls (Flyweight.getCoordinate [] 0 0).1 [(1, 1)]) 0 0).2 =
      (Flyweight.getCoordinate [] 0 0).2 :=
  ⟨rfl, C8_canonicalize [] 0 0 0 0 [(1, 1)] rfl rfl⟩

/-- C9 (amended): in `main.ts`, `updateCaches` spawns exactly the cells of
the inclusive square window `playerCell ± 8` that pass the existence check
— membership in the spawned set is equivalent to the claim's bounds plus
the existence check. The `example.ts`/`part_001` scan loops use an
exclusive upper bound instead (see the counterexample). -/
theorem C9_main_window (luck : String → Rat) (pci pcj i j : Int) :
    (i, j) ∈ Main.updateCaches luck pci pcj ↔
      pci - 8 ≤ i ∧ i ≤ pci + 8 ∧ pcj - 8 ≤ j ∧ j ≤ pcj + 8 ∧
      cacheExists luck i j = true :=
  mem_updateCaches

/-- C9 counterexample: in the `example.ts` scan (player cell `(0,0)`,
radius 8), the cell `(8, 0)` satisfies the claim's inclusive window bounds
and passes the existence check under the constant-zero oracle, yet is not
spawned — the loops' upper bound `i < 8` excludes it. -/
theorem C9_counterexample :
    ((8, 0) : Int × Int) ∉ ExampleVariant.scan luckZero ∧
    cacheExists luckZero 8 0 = true ∧
    (0:Int) - 8 ≤ 8 ∧ (8:Int) ≤ 0 + 8 ∧ (0:Int) - 8 ≤ 0 ∧ (0:Int) ≤ 0 + 8 := by
  decide

/-- C10: points accounting in the `main.ts` store-backed count model. With
a stored entry `⟨pv, c⟩` for the cell and the popup's captured `pointValue`
equal to the stored `pv`, `k ≤ c` successive collect clicks increase the
player's points by exactly `k * pv` (in particular each single successful
collect adds exactly the cache's `pointValue`), and a deposit click never
changes the player's points. -/
theorem C10_points_accounting (s : Main.GameState) (i j pv c : Int)
    (h : alookup s.cacheState (cellKey i j) = some ⟨pv, c⟩)
    (k : Nat) (hk : (k : Int) ≤ c) :
    ((fun t => Main.collectClick t i j pv)^[k] s).playerPoints =
      s.playerPoints + k * pv ∧
    (∀ (t : Main.GameState) (a b : Int),
      (Main.depositClick t a b).playerPoints = t.playerPoints) :=
  ⟨collect_iterate_points i j pv k s c h hk, depositClick_points⟩

/-- C10 witness: a store with entry `⟨3, 2⟩` at cell `(0,0)` satisfies the
hypotheses for `k = 2`, and the theorem applies there. -/
theorem C10_witness :
    alookup ([("0,0", (⟨3, 2⟩ : CacheRecord))]) (cellKey 0 0) = some ⟨3, 2⟩ ∧
    ((2 : Nat) : Int) ≤ 2 ∧
    (((fun t => Main.collectClick t 0 0 3)^[2] (⟨[("0,0", ⟨3, 2⟩)], 0, 0⟩ : Main.GameState)).playerPoints =
        (⟨[("0,0", ⟨3, 2⟩)], 0, 0⟩ : Main.GameState).playerPoints + 2 * 3 ∧
      (∀ (t : Main.GameState) (a b : Int),
        (Main.depositClick t a b).playerPoints = t.playerPoints)) :=
  ⟨by decide, by decide,
   C10_points_accounting ⟨[("0,0", ⟨3, 2⟩)], 0, 0⟩ 0 0 3 2 (by decide) 2 (by decide)⟩

end Demo3
